import Mathlib

/-!
# Verification of the hono-typeorm column auto-fill and connection provisioning logic

Shallow embedding of the repository's source files:
* `src/columns.ts` — role-tagged global column policies (`timeGlobalColumn`,
  `primaryGlobalColumn`, `userIdGlobalColumn`), their setters, and the
  role-tag-dispatching `AutoFillValueSubscriber` (embedded below with the
  `role` prefix).
* `src/column.test.ts` (second embedded module) — the `buildColumn` /
  `generateTrigger` variant of the column registrar and its
  `AutoFillValueSubscriber` (embedded below with the `trig` prefix).
* `src/index.ts` — `getDataSourceInstance` and `createTypeormMiddleware`.

JavaScript objects holding column values are modelled as association lists
from property names to runtime values; `undefined` is `Option.none`.
Generator functions may throw, so they are modelled as `Except String`
values; the lifecycle handlers run in `Except String` and additionally
return the list of property names whose generator was invoked, so that
"the generator is never invoked" is a statable property.
-/

namespace HonoTypeorm

/-- Runtime values stored in entity fields (the subset of JS values the
subsystem manipulates: strings, numbers and `Date` objects, the latter
identified by their epoch-millisecond payload). -/
inductive JSVal where
  | str (s : String)
  | num (n : Int)
  | date (ms : Nat)
deriving DecidableEq, Repr

/-- Host-runtime primitive `Date.prototype.toISOString`, modelled abstractly
as an injective rendering of the epoch value; only the defined/undefined
case structure of the transformers is verified against it. -/
def toISOString (ms : Nat) : String := "1970-01-01T00:00:00+" ++ toString ms ++ "ms"

/-- Host-runtime primitive `new Date(string)` (ISO parsing), modelled
abstractly; only the defined/undefined case structure is verified. -/
def parseDate (s : String) : Nat := s.length

/-- Host-runtime primitive `new Date()` / `Date.now()`, modelled as a fixed
instant. -/
def jsNow : Nat := 0

/-- JS truthiness for the modelled values (`""` and `0` are falsy). -/
def jsTruthy : JSVal → Bool
  | .str s => !s.isEmpty
  | .num n => n != 0
  | .date _ => true

/-- Host-runtime coercion `new Date(x)` applied to an arbitrary value. -/
def parseDateJS : JSVal → Nat
  | .str s => parseDate s
  | .num n => n.toNat
  | .date ms => ms

/-- An entity instance: a JS object, modelled as an association list from
property names to values; an absent key is JS `undefined`. -/
abbrev Entity := List (String × JSVal)

/-- Property read `entity[prop]` (`none` is `undefined`). -/
def lookupVal : Entity → String → Option JSVal
  | [], _ => none
  | (k', v') :: rest, k => if k' = k then some v' else lookupVal rest k

/-- Property write `entity[prop] = v` (replaces the first binding or
appends). -/
def setVal : Entity → String → JSVal → Entity
  | [], k, v => [(k, v)]
  | (k', v') :: rest, k, v => if k' = k then (k, v) :: rest else (k', v') :: setVal rest k v

/-! ## Global column policies (`src/columns.ts`, lines 13-59, 115-151, 180-216)

A `CustomTransformer` bundles a generator (which may throw — modelled with
`Except String`), an outbound transform `to` and an inbound transform
`from` (field names `toFn` / `fromFn` here because `from` is reserved in
Lean). The registry singletons are modelled as the initial values of the
`let` bindings; the mutating setters are modelled as pure
state-transition functions old-policy → partial-argument → new-policy. -/

structure CustomTransformer where
  generate : Except String JSVal
  toFn : Option JSVal → Option JSVal
  fromFn : Option JSVal → Option JSVal

structure CustomColumn where
  type : String
  length : Nat
  transformer : CustomTransformer

/-- `Partial<CustomColumn>` as taken by `setTimeGlobalColumn`. -/
structure PartialCustomColumn where
  type : Option String := none
  length : Option Nat := none
  transformer : Option CustomTransformer := none

/-- `Partial<CustomTransformer>` as accepted by the primary / user-id
setters. -/
structure PartialCustomTransformer where
  generate : Option (Except String JSVal) := none
  toFn : Option (Option JSVal → Option JSVal) := none
  fromFn : Option (Option JSVal → Option JSVal) := none

/-- `Partial<Omit<CustomColumn,'transformer'> & {transformer: Partial<CustomTransformer>}>`. -/
structure PartialCustomColumnPT where
  type : Option String := none
  length : Option Nat := none
  transformer : Option PartialCustomTransformer := none

/-- Initial value of `timeGlobalColumn` (`src/columns.ts:31-48`): varchar(50),
generator producing the current instant, `to` mapping a `Date` to its ISO
string and anything else to `undefined`, `from` mapping a truthy input to a
parsed `Date` and `undefined`/`""` to `undefined`. -/
def timeGlobalColumn : CustomColumn :=
  { type := "varchar"
    length := 50
    transformer :=
      { generate := .ok (.date jsNow)
        toFn := fun v =>
          match v with
          | some (.date ms) => some (.str (toISOString ms))
          | _ => none
        fromFn := fun d =>
          match d with
          | none => none
          | some v => if jsTruthy v then some (.date (parseDateJS v)) else none } }

/-- `setTimeGlobalColumn` (`src/columns.ts:49-59`): overwrite `transformer`,
`type`, `length` in that order, each only when supplied. -/
def setTimeGlobalColumn (cur : CustomColumn) (custom : PartialCustomColumn) : CustomColumn :=
  let cur := match custom.transformer with
    | some tr => { cur with transformer := tr }
    | none => cur
  let cur := match custom.type with
    | some t => { cur with type := t }
    | none => cur
  match custom.length with
  | some l => { cur with length := l }
  | none => cur

/-- Initial value of `primaryGlobalColumn` (`src/columns.ts:115-129`):
varchar(36), generator throwing until configured, pass-through transforms. -/
def primaryGlobalColumn : CustomColumn :=
  { type := "varchar"
    length := 36
    transformer :=
      { generate := .error "Not implemented, please setPrimaryGlobalColumn first"
        toFn := fun v => v
        fromFn := fun d => d } }

/-- `setPrimaryGlobalColumn` (`src/columns.ts:131-151`): merge the supplied
transformer sub-fields (`generate`, `to`, `from`, each only when supplied),
then `type`, then `length`. -/
def setPrimaryGlobalColumn (cur : CustomColumn) (custom : PartialCustomColumnPT) : CustomColumn :=
  let cur := match custom.transformer with
    | some tr =>
      let c := match tr.generate with
        | some g => { cur with transformer := { cur.transformer with generate := g } }
        | none => cur
      let c := match tr.toFn with
        | some f => { c with transformer := { c.transformer with toFn := f } }
        | none => c
      match tr.fromFn with
      | some f => { c with transformer := { c.transformer with fromFn := f } }
      | none => c
    | none => cur
  let cur := match custom.type with
    | some t => { cur with type := t }
    | none => cur
  match custom.length with
  | some l => { cur with length := l }
  | none => cur

/-- Initial value of `userIdGlobalColumn` (`src/columns.ts:180-194`):
varchar(36), generator throwing until configured, pass-through transforms. -/
def userIdGlobalColumn : CustomColumn :=
  { type := "varchar"
    length := 36
    transformer :=
      { generate := .error "Not implemented, please userIdGlobalColumn first"
        toFn := fun v => v
        fromFn := fun d => d } }

/-- `setUserIdGlobalColumn` (`src/columns.ts:196-216`): same merge shape as
the primary setter, applied to the user-id singleton. -/
def setUserIdGlobalColumn (cur : CustomColumn) (custom : PartialCustomColumnPT) : CustomColumn :=
  let cur := match custom.transformer with
    | some tr =>
      let c := match tr.generate with
        | some g => { cur with transformer := { cur.transformer with generate := g } }
        | none => cur
      let c := match tr.toFn with
        | some f => { c with transformer := { c.transformer with toFn := f } }
        | none => c
      match tr.fromFn with
      | some f => { c with transformer := { c.transformer with fromFn := f } }
      | none => c
    | none => cur
  let cur := match custom.type with
    | some t => { cur with type := t }
    | none => cur
  match custom.length with
  | some l => { cur with length := l }
  | none => cur

/-! ## Column markers

A column's `transformer` option in the metadata registry is either absent
(`undef`), an array of plain transformers (`arr`), or a single transformer
object (`one`); the guard functions `getCustomTransformer` /
`getGenerator` narrow it exactly as the source does. -/

inductive TransformerArg (τ : Type) where
  | undef
  | arr (ts : List τ)
  | one (t : τ)

/-- Role tags of `src/columns.ts` (`CustomTransformerType`, lines 23-28). -/
inductive CustomTransformerType where
  | createAtColumn
  | updateAtColumn
  | primaryColumn
  | createIdColumn
  | updateIdColumn
deriving DecidableEq, Repr

/-- A transformer object as stored by the role-tagged decorators: it may or
may not carry the role tag `type`; its `generate` closure delegates to the
current global policy, modelled by the `Except` outcome of that call. -/
structure RoleTransformer where
  rtype : Option CustomTransformerType
  generate : Except String JSVal

/-- A role transformer after the guard has established the tag. -/
structure RoleTagged where
  rtype : CustomTransformerType
  generate : Except String JSVal

/-- `getCustomTransformer` (`src/columns.ts:269-280`): reject `undefined`,
arrays, and untagged transformers. -/
def getCustomTransformer : TransformerArg RoleTransformer → Option RoleTagged
  | .undef => none
  | .arr _ => none
  | .one t =>
    match t.rtype with
    | none => none
    | some tag => some ⟨tag, t.generate⟩

/-- A column metadata entry as read by the role-tagged subscriber. -/
structure RoleColumn where
  propertyName : String
  transformer : TransformerArg RoleTransformer

/-- Generate triggers of the `buildColumn` module
(`src/column.test.ts:178-188`). -/
inductive GenerateTrigger where
  | create
  | update
  | createAndUpdate
deriving DecidableEq, Repr

/-- A transformer object as stored by `buildColumn`: optional trigger and
optional generator. -/
structure TrigTransformer where
  generateTrigger : Option GenerateTrigger
  generate : Option (Except String JSVal)

/-- A trigger transformer after the guard has established both fields. -/
structure TrigTagged where
  generateTrigger : GenerateTrigger
  generate : Except String JSVal

/-- `getGenerator` (`src/column.test.ts:276-290`): reject `undefined`,
arrays, and transformers missing the trigger or the generator. -/
def getGenerator : TransformerArg TrigTransformer → Option TrigTagged
  | .undef => none
  | .arr _ => none
  | .one t =>
    match t.generateTrigger with
    | none => none
    | some tr =>
      match t.generate with
      | none => none
      | some g => some ⟨tr, g⟩

/-- A column metadata entry as read by the trigger-based subscriber. -/
structure TrigColumn where
  propertyName : String
  transformer : TransformerArg TrigTransformer

/-! ## The lifecycle fill loops

Every loop of both subscribers' `beforeInsert` / `beforeUpdate` handlers
has the same shape: walk the column list; optionally skip a column whose
current entity value is defined; ask a per-column guard whether the column
is eligible and, if so, with which generator outcome; on eligibility invoke
the generator (recording the property name in the invocation log) and
assign the value, a thrown generator error aborting the whole event.
`fillLoop` captures that shape once; each handler instantiates it with the
exact guard of the corresponding source loop.  `checkDefined` is `true`
for every source loop except the primary-column pass of the trigger-based
`beforeInsert` (`src/column.test.ts:319-330`), which reads the entity
without the defined-value check. -/

def fillLoop {α : Type} (nameOf : α → String) (act : α → Option (Except String JSVal))
    (checkDefined : Bool) :
    Entity → List String → List α → Except String (Entity × List String)
  | ent, log, [] => .ok (ent, log)
  | ent, log, c :: rest =>
    if checkDefined && (lookupVal ent (nameOf c)).isSome then
      fillLoop nameOf act checkDefined ent log rest
    else
      match act c with
      | none => fillLoop nameOf act checkDefined ent log rest
      | some (.error e) => .error e
      | some (.ok v) =>
        fillLoop nameOf act checkDefined (setVal ent (nameOf c) v) (log ++ [nameOf c]) rest

/-- Guard of the first `beforeInsert` loop of the role-tagged subscriber
(`src/columns.ts:297-309`): any of the four non-primary role tags is
generated on insert. -/
def roleInsertAct (c : RoleColumn) : Option (Except String JSVal) :=
  match getCustomTransformer c.transformer with
  | none => none
  | some ct =>
    if ct.rtype = .createAtColumn ∨ ct.rtype = .updateAtColumn ∨
        ct.rtype = .createIdColumn ∨ ct.rtype = .updateIdColumn then
      some ct.generate
    else none

/-- Guard of the primary-column `beforeInsert` loop of the role-tagged
subscriber (`src/columns.ts:312-323`). -/
def rolePrimaryAct (c : RoleColumn) : Option (Except String JSVal) :=
  match getCustomTransformer c.transformer with
  | none => none
  | some ct => if ct.rtype = .primaryColumn then some ct.generate else none

/-- Guard of the `beforeUpdate` loop of the role-tagged subscriber
(`src/columns.ts:330-348`). -/
def roleUpdateAct (c : RoleColumn) : Option (Except String JSVal) :=
  match getCustomTransformer c.transformer with
  | none => none
  | some ct =>
    if ct.rtype = .updateAtColumn ∨ ct.rtype = .updateIdColumn then some ct.generate else none

/-- Guard of both `beforeInsert` loops of the trigger-based subscriber
(`src/column.test.ts:311-314` and `324-327`). -/
def trigCreateAct (c : TrigColumn) : Option (Except String JSVal) :=
  match getGenerator c.transformer with
  | none => none
  | some g =>
    if g.generateTrigger = .create ∨ g.generateTrigger = .createAndUpdate then
      some g.generate
    else none

/-- Guard of the `beforeUpdate` loop of the trigger-based subscriber
(`src/column.test.ts:350-353`). -/
def trigUpdateAct (c : TrigColumn) : Option (Except String JSVal) :=
  match getGenerator c.transformer with
  | none => none
  | some g =>
    if g.generateTrigger = .update ∨ g.generateTrigger = .createAndUpdate then
      some g.generate
    else none

/-- An `InsertEvent`: the entity instance plus the metadata column lists. -/
structure RoleInsertEvent where
  entity : Entity
  columns : List RoleColumn
  primaryColumns : List RoleColumn

/-- `AutoFillValueSubscriber.beforeInsert` of `src/columns.ts:291-325`:
iterate `metadata.columns` skipping defined fields and filling the four
non-primary role tags, then iterate `metadata.primaryColumns` skipping
defined fields and filling `primaryColumn`-tagged fields.  The returned
list records the property names whose generator was invoked. -/
def roleBeforeInsert (ev : RoleInsertEvent) : Except String (Entity × List String) := do
  let (e1, l1) ← fillLoop RoleColumn.propertyName roleInsertAct true ev.entity [] ev.columns
  fillLoop RoleColumn.propertyName rolePrimaryAct true e1 l1 ev.primaryColumns

/-- An `UpdateEvent`: `event.entity` may be `undefined`. -/
structure RoleUpdateEvent where
  entity : Option Entity
  columns : List RoleColumn

/-- `AutoFillValueSubscriber.beforeUpdate` of `src/columns.ts:330-348`:
when `event.entity` is `undefined` every iteration `continue`s (no
assignment at all); otherwise fill undefined fields tagged
`updateAtColumn` / `updateIdColumn`. -/
def roleBeforeUpdate (ev : RoleUpdateEvent) : Except String (Option Entity × List String) :=
  match ev.entity with
  | none => .ok (none, [])
  | some e =>
    (fillLoop RoleColumn.propertyName roleUpdateAct true e [] ev.columns).map
      (fun p => (some p.1, p.2))

/-- An `InsertEvent` for the trigger-based subscriber. -/
structure TrigInsertEvent where
  entity : Entity
  columns : List TrigColumn
  primaryColumns : List TrigColumn

/-- `AutoFillValueSubscriber.beforeInsert` of `src/column.test.ts:301-332`:
iterate `metadata.columns` skipping defined fields and filling
`create` / `createAndUpdate` triggers, then iterate
`metadata.primaryColumns` — without the defined-value check — filling
`create` / `createAndUpdate` triggers. -/
def trigBeforeInsert (ev : TrigInsertEvent) : Except String (Entity × List String) := do
  let (e1, l1) ← fillLoop TrigColumn.propertyName trigCreateAct true ev.entity [] ev.columns
  fillLoop TrigColumn.propertyName trigCreateAct false e1 l1 ev.primaryColumns

/-- An `UpdateEvent` for the trigger-based subscriber. -/
structure TrigUpdateEvent where
  entity : Option Entity
  columns : List TrigColumn

/-- `AutoFillValueSubscriber.beforeUpdate` of `src/column.test.ts:337-357`. -/
def trigBeforeUpdate (ev : TrigUpdateEvent) : Except String (Option Entity × List String) :=
  match ev.entity with
  | none => .ok (none, [])
  | some e =>
    (fillLoop TrigColumn.propertyName trigUpdateAct true e [] ev.columns).map
      (fun p => (some p.1, p.2))

/-! ## The connection provisioner (`src/index.ts`) -/

/-- Subscribers registered on a connection: the library's own auto-fill
listener, or an opaque caller-supplied one. -/
inductive Subscriber where
  | autoFillValueSubscriber
  | other (id : Nat)
deriving DecidableEq, Repr

/-- The options struct `TypeormOpts` (`src/index.ts:8-55`); an absent or
`undefined` option is `none`. -/
structure TypeormOpts where
  type : Option String := none
  url : Option String := none
  synchronize : Option Bool := none
  driver : Option String := none
  logLevel : Option (List String) := none
  entities : Option (List String) := none
  subscribers : Option (List Subscriber) := none

/-- The process environment, `process.env`. -/
abbrev Env := List (String × String)

/-- `env[key] || undefined`: JS `||` coalesces the empty (falsy) string to
`undefined`. -/
def envOr (env : Env) (k : String) : Option String :=
  match env.lookup k with
  | none => none
  | some s => if s.isEmpty then none else some s

/-- The config record produced by the `Object.assign` call
(`src/index.ts:60-67`): option fields from `opts` when present, otherwise
the environment-derived defaults (`synchronize` defaults to the comparison
`env['DATABASE_SYNCHRONIZE'] === 'true'`). -/
structure MergedConfig where
  type : Option String
  url : Option String
  synchronize : Bool
  driver : Option String
  logLevel : Option (List String)
  entities : Option (List String)
  subscribers : Option (List Subscriber)

/-- `Object.assign({type: env.., url: env.., synchronize: env..}, opts || {})`
(`src/index.ts:57-67`). -/
def assignDefaults (env : Env) (opts : Option TypeormOpts) : MergedConfig :=
  let o := opts.getD {}
  { type := o.type.orElse (fun _ => envOr env "DATABASE_TYPE")
    url := o.url.orElse (fun _ => envOr env "DATABASE_URL")
    synchronize := o.synchronize.getD (env.lookup "DATABASE_SYNCHRONIZE" == some "true")
    driver := o.driver
    logLevel := o.logLevel
    entities := o.entities
    subscribers := o.subscribers }

/-- JS `String.prototype.startsWith`, via an explicit character-list
prefix check. -/
def charsLeads : List Char → List Char → Bool
  | [], _ => true
  | _ :: _, [] => false
  | p :: ps, c :: cs => p = c && charsLeads ps cs

/-- `url.startsWith(p)`. -/
def strStartsWith (s p : String) : Bool := charsLeads p.data s.data

/-- `url.substring(n)`. -/
def jsSubstring (s : String) (n : Nat) : String := ⟨s.data.drop n⟩

/-- The URL-scheme type-inference block (`src/index.ts:73-88`): when `type`
is unset, sniff the `url` prefix; `sqlite:` / `better-sqlite3:` / `file:`
additionally strip the scheme from the stored url. -/
def inferType (config : MergedConfig) : MergedConfig :=
  match config.type with
  | some _ => config
  | none =>
    match config.url with
    | none => config
    | some u =>
      if strStartsWith u "postgresql://" then { config with type := some "postgres" }
      else if strStartsWith u "mysql://" then { config with type := some "mysql" }
      else if strStartsWith u "sqlite:" then
        { config with type := some "sqlite", url := some (jsSubstring u 7) }
      else if strStartsWith u "better-sqlite3:" then
        { config with type := some "better-sqlite3", url := some (jsSubstring u 15) }
      else if strStartsWith u "file:" then
        { config with type := some "sqlite", url := some (jsSubstring u 5) }
      else config

/-- The options record handed to the `DataSource` constructor
(`src/index.ts:90-99`). -/
structure DataSourceOptions where
  type : Option String
  url : Option String
  database : Option String
  driver : Option String
  synchronize : Bool
  logging : List String
  entities : Option (List String)
  subscribers : Option (List Subscriber)

/-- A constructed (not initialized) `DataSource`. -/
structure DataSource where
  options : DataSourceOptions

/-- `getDataSourceInstance` (`src/index.ts:57-101`): merge the env defaults,
prepend the auto-fill subscriber to the caller's subscriber array (when it
is an array), run URL-scheme inference, and construct the `DataSource`
options. -/
def getDataSourceInstance (env : Env) (opts : Option TypeormOpts) : DataSource :=
  let config := assignDefaults env opts
  let subscribers : List Subscriber :=
    .autoFillValueSubscriber ::
      (match config.subscribers with
       | some l => l
       | none => [])
  let config := inferType config
  { options :=
      { type := config.type
        url := config.url
        database :=
          if config.type = some "sqlite" ∨ config.type = some "better-sqlite3" then config.url
          else none
        driver := config.driver
        synchronize := config.synchronize
        logging := config.logLevel.getD ["error", "warn"]
        entities := config.entities
        subscribers := some subscribers } }

/-- `inst.setOptions({subscribers: ...})` merges the supplied field into the
existing options of the connection object. -/
def setOptionsSubscribers (ds : DataSource) (subs : List Subscriber) : DataSource :=
  { ds with options := { ds.options with subscribers := some subs } }

/-- `createTypeormMiddleware` (`src/index.ts:103-129`), restricted to the
connection object it returns (the middleware itself only stores that
object on the request context).  A pre-built `DataSource` argument keeps
its options and gets the auto-fill subscriber prepended to its (array)
subscriber list; a raw options argument is normalized
(`subscribers: [...(opts?.subscribers || [])]`) and passed to
`getDataSourceInstance`. -/
def createTypeormMiddleware (env : Env) (opts : Option (TypeormOpts ⊕ DataSource)) :
    DataSource :=
  match opts with
  | some (.inr inst) =>
    setOptionsSubscribers inst
      (.autoFillValueSubscriber ::
        (match inst.options.subscribers with
         | some l => l
         | none => []))
  | some (.inl o) =>
    getDataSourceInstance env (some { o with subscribers := some (o.subscribers.getD []) })
  | none =>
    getDataSourceInstance env (some { subscribers := some ([] : List Subscriber) })

/-! ## `buildColumn` (`src/column.test.ts:242-274`) -/

/-- A caller-supplied `ValueTransformer` for `buildColumn`: optional `to`
and `from` functions. -/
structure ValueTransformerArg where
  toFn : Option (Option JSVal → Option JSVal) := none
  fromFn : Option (Option JSVal → Option JSVal) := none

/-- The argument record of `buildColumn`. -/
structure BuildColumnOptions where
  generateTrigger : Option GenerateTrigger := none
  generate : Option (Except String JSVal) := none
  transformer : Option ValueTransformerArg := none

/-- The transformer object that the decorator returned by `buildColumn`
registers in the column metadata for a given property. -/
structure RegisteredTransformer where
  generateTrigger : Option GenerateTrigger
  generate : Option (Except String JSVal)
  toFn : Option JSVal → Option JSVal
  fromFn : Option JSVal → Option JSVal

/-- `buildColumn`: validate at decorator-construction time that
`generateTrigger` and `generate` are supplied together or not at all,
then return the property decorator (modelled as the transformer it would
register, per property name; `columnOptions` cannot override the
transformer and is omitted). -/
def buildColumn (opts : BuildColumnOptions) :
    Except String (String → RegisteredTransformer) :=
  if opts.generateTrigger.isSome && opts.generate.isNone then
    .error "generate is required when generateTrigger is set"
  else if opts.generate.isSome && opts.generateTrigger.isNone then
    .error "generateTrigger is required when generate is set"
  else
    .ok fun _propertyName =>
      { generateTrigger := opts.generateTrigger
        generate := opts.generate
        toFn := fun val =>
          match opts.transformer with
          | some tr =>
            match tr.toFn with
            | some f => f val
            | none => val
          | none => val
        fromFn := fun dbVal =>
          match opts.transformer with
          | some tr =>
            match tr.fromFn with
            | some f => f dbVal
            | none => dbVal
          | none => dbVal }

/-! ## Generic lemmas about the fill loops -/

theorem lookupVal_setVal_self (e : Entity) (k : String) (v : JSVal) :
    lookupVal (setVal e k v) k = some v := by
  induction e with
  | nil => simp [setVal, lookupVal]
  | cons hd tl ih =>
    obtain ⟨k', v'⟩ := hd
    by_cases h : k' = k
    · simp [setVal, lookupVal, h]
    · simp [setVal, lookupVal, h, ih]

theorem lookupVal_setVal_ne (e : Entity) (k k' : String) (v : JSVal) (h : k' ≠ k) :
    lookupVal (setVal e k v) k' = lookupVal e k' := by
  induction e with
  | nil =>
    simp only [setVal, lookupVal]
    rw [if_neg (fun hk : k = k' => h hk.symm)]
  | cons hd tl ih =>
    obtain ⟨k₀, v₀⟩ := hd
    by_cases hk : k₀ = k
    · subst hk
      simp only [setVal, if_pos rfl, lookupVal]
      rw [if_neg (fun hk' => h hk'.symm), if_neg (fun hk' => h hk'.symm)]
    · simp only [setVal, if_neg hk, lookupVal]
      by_cases hk' : k₀ = k'
      · simp [hk']
      · simp [hk', ih]

theorem fillLoop_cons {α : Type} (nameOf : α → String) (act : α → Option (Except String JSVal))
    (cd : Bool) (ent : Entity) (log : List String) (c : α) (rest : List α) :
    fillLoop nameOf act cd ent log (c :: rest) =
      if cd && (lookupVal ent (nameOf c)).isSome then
        fillLoop nameOf act cd ent log rest
      else
        match act c with
        | none => fillLoop nameOf act cd ent log rest
        | some (.error e) => .error e
        | some (.ok v) =>
          fillLoop nameOf act cd (setVal ent (nameOf c) v) (log ++ [nameOf c]) rest := rfl

/-- A successful fill loop does not touch fields whose name is not among the
processed columns. -/
theorem fillLoop_frame {α : Type} (nameOf : α → String) (act : α → Option (Except String JSVal))
    (cd : Bool) :
    ∀ (cols : List α) (ent : Entity) (log : List String) (ent' : Entity) (log' : List String),
      fillLoop nameOf act cd ent log cols = .ok (ent', log') →
      ∀ k, k ∉ cols.map nameOf → lookupVal ent' k = lookupVal ent k := by
  intro cols
  induction cols with
  | nil =>
    intro ent log ent' log' h k _
    simp only [fillLoop, Except.ok.injEq, Prod.mk.injEq] at h
    rw [← h.1]
  | cons c rest ih =>
    intro ent log ent' log' h k hk
    rw [List.map_cons, List.mem_cons, not_or] at hk
    obtain ⟨hk1, hk2⟩ := hk
    rw [fillLoop_cons] at h
    cases hb : cd && (lookupVal ent (nameOf c)).isSome with
    | true =>
      rw [hb, if_pos rfl] at h
      exact ih ent log ent' log' h k hk2
    | false =>
      rw [hb] at h
      simp only [Bool.false_eq_true, if_false] at h
      cases hact : act c with
      | none =>
        rw [hact] at h
        exact ih ent log ent' log' h k hk2
      | some g =>
        cases g with
        | error e => rw [hact] at h; exact absurd h (by simp)
        | ok v =>
          rw [hact] at h
          rw [ih _ _ ent' log' h k hk2]
          exact lookupVal_setVal_ne ent (nameOf c) k v hk1

/-- A successful fill loop only appends to the invocation log, and every
appended name is the name of a processed column. -/
theorem fillLoop_log {α : Type} (nameOf : α → String) (act : α → Option (Except String JSVal))
    (cd : Bool) :
    ∀ (cols : List α) (ent : Entity) (log : List String) (ent' : Entity) (log' : List String),
      fillLoop nameOf act cd ent log cols = .ok (ent', log') →
      ∃ grown, log' = log ++ grown ∧ ∀ k ∈ grown, k ∈ cols.map nameOf := by
  intro cols
  induction cols with
  | nil =>
    intro ent log ent' log' h
    simp only [fillLoop, Except.ok.injEq, Prod.mk.injEq] at h
    exact ⟨[], by simp [← h.2]⟩
  | cons c rest ih =>
    intro ent log ent' log' h
    rw [fillLoop_cons] at h
    cases hb : cd && (lookupVal ent (nameOf c)).isSome with
    | true =>
      rw [hb, if_pos rfl] at h
      obtain ⟨grown, hg1, hg2⟩ := ih ent log ent' log' h
      exact ⟨grown, hg1, fun k hkg => by simp [hg2 k hkg]⟩
    | false =>
      rw [hb] at h
      simp only [Bool.false_eq_true, if_false] at h
      cases hact : act c with
      | none =>
        rw [hact] at h
        obtain ⟨grown, hg1, hg2⟩ := ih ent log ent' log' h
        exact ⟨grown, hg1, fun k hkg => by simp [hg2 k hkg]⟩
      | some g =>
        cases g with
        | error e => rw [hact] at h; exact absurd h (by simp)
        | ok v =>
          rw [hact] at h
          obtain ⟨grown, hg1, hg2⟩ := ih _ _ ent' log' h
          refine ⟨nameOf c :: grown, by simp [hg1], fun k hkg => ?_⟩
          rcases List.mem_cons.mp hkg with hkc | hkg'
          · simp [hkc]
          · simp [hg2 k hkg']

/-- With the defined-value check active, a field that is defined going in
keeps its value, and its generator is never invoked. -/
theorem fillLoop_preserves_defined {α : Type} (nameOf : α → String)
    (act : α → Option (Except String JSVal)) :
    ∀ (cols : List α) (ent : Entity) (log : List String) (k : String) (v : JSVal)
      (ent' : Entity) (log' : List String),
      fillLoop nameOf act true ent log cols = .ok (ent', log') →
      lookupVal ent k = some v →
      lookupVal ent' k = some v ∧ ∃ grown, log' = log ++ grown ∧ k ∉ grown := by
  intro cols
  induction cols with
  | nil =>
    intro ent log k v ent' log' h hv
    simp only [fillLoop, Except.ok.injEq, Prod.mk.injEq] at h
    exact ⟨h.1 ▸ hv, [], by simp [← h.2]⟩
  | cons c rest ih =>
    intro ent log k v ent' log' h hv
    rw [fillLoop_cons] at h
    by_cases hkc : nameOf c = k
    · rw [hkc, hv] at h
      simp only [Option.isSome_some, Bool.and_self, if_true] at h
      exact ih ent log k v ent' log' h hv
    · cases hb : true && (lookupVal ent (nameOf c)).isSome with
      | true =>
        rw [hb, if_pos rfl] at h
        exact ih ent log k v ent' log' h hv
      | false =>
        rw [hb] at h
        simp only [Bool.false_eq_true, if_false] at h
        cases hact : act c with
        | none =>
          rw [hact] at h
          exact ih ent log k v ent' log' h hv
        | some g =>
          cases g with
          | error e => rw [hact] at h; exact absurd h (by simp)
          | ok v' =>
            rw [hact] at h
            have hv' : lookupVal (setVal ent (nameOf c) v') k = some v := by
              rw [lookupVal_setVal_ne ent (nameOf c) k v' (fun hk => hkc hk.symm)]
              exact hv
            obtain ⟨h1, grown, hg1, hg2⟩ := ih _ _ k v ent' log' h hv'
            refine ⟨h1, nameOf c :: grown, by simp [hg1], ?_⟩
            intro hmem
            rcases List.mem_cons.mp hmem with hk | hk
            · exact hkc hk.symm
            · exact hg2 hk

/-- With the defined-value check active and distinct column names, the fate
of an undefined field of a processed column is decided exactly by the
per-column guard: an eligible generator's value is assigned and logged, an
ineligible column stays undefined and unlogged, and an eligible throwing
generator prevents the loop from succeeding at all. -/
theorem fillLoop_char {α : Type} (nameOf : α → String)
    (act : α → Option (Except String JSVal)) :
    ∀ (cols : List α) (ent : Entity) (log : List String) (c : α)
      (ent' : Entity) (log' : List String),
      (cols.map nameOf).Nodup →
      c ∈ cols →
      lookupVal ent (nameOf c) = none →
      fillLoop nameOf act true ent log cols = .ok (ent', log') →
      ∃ grown, log' = log ++ grown ∧
        (∀ v, act c = some (Except.ok v) →
            lookupVal ent' (nameOf c) = some v ∧ nameOf c ∈ grown) ∧
        (act c = none → lookupVal ent' (nameOf c) = none ∧ nameOf c ∉ grown) ∧
        (∀ e, act c ≠ some (Except.error e)) := by
  intro cols
  induction cols with
  | nil => intro ent log c ent' log' _ hc; exact absurd hc (List.not_mem_nil c)
  | cons hd rest ih =>
    intro ent log c ent' log' hnd hc hlook h
    rw [List.map_cons, List.nodup_cons] at hnd
    obtain ⟨hhd, hndrest⟩ := hnd
    rw [fillLoop_cons] at h
    rcases List.mem_cons.mp hc with rfl | hcrest
    · -- the examined column is the head
      rw [hlook] at h
      simp only [Option.isSome_none, Bool.and_false, Bool.false_eq_true, if_false] at h
      cases hact : act c with
      | none =>
        rw [hact] at h
        have hframe := fillLoop_frame nameOf act true rest ent log ent' log' h (nameOf c) hhd
        obtain ⟨grown, hg1, hg2⟩ := fillLoop_log nameOf act true rest ent log ent' log' h
        exact ⟨grown, hg1,
          fun v hv => Option.noConfusion hv,
          fun _ => ⟨hframe.trans hlook, fun hmem => hhd (hg2 _ hmem)⟩,
          fun e he => Option.noConfusion he⟩
      | some g =>
        cases g with
        | error e => rw [hact] at h; exact absurd h (by simp)
        | ok v =>
          rw [hact] at h
          have hframe := fillLoop_frame nameOf act true rest _ _ ent' log' h (nameOf c) hhd
          obtain ⟨grown, hg1, hg2⟩ := fillLoop_log nameOf act true rest _ _ ent' log' h
          refine ⟨nameOf c :: grown, by simp [hg1], ?_, ?_, ?_⟩
          · intro v' hv'
            obtain rfl : v = v' := by
              simp only [Option.some.injEq, Except.ok.injEq] at hv'
              exact hv'
            refine ⟨?_, List.mem_cons_self _ _⟩
            rw [hframe, lookupVal_setVal_self]
          · intro hnone; exact Option.noConfusion hnone
          · intro e he
            have := Option.some.inj he
            exact Except.noConfusion this
    · -- the examined column lies in the tail
      have hne : nameOf hd ≠ nameOf c := by
        intro heq
        exact hhd (heq ▸ List.mem_map_of_mem nameOf hcrest)
      cases hb : true && (lookupVal ent (nameOf hd)).isSome with
      | true =>
        rw [hb, if_pos rfl] at h
        exact ih ent log c ent' log' hndrest hcrest hlook h
      | false =>
        rw [hb] at h
        simp only [Bool.false_eq_true, if_false] at h
        cases hact : act hd with
        | none =>
          rw [hact] at h
          exact ih ent log c ent' log' hndrest hcrest hlook h
        | some g =>
          cases g with
          | error e => rw [hact] at h; exact absurd h (by simp)
          | ok v =>
            rw [hact] at h
            have hlook' : lookupVal (setVal ent (nameOf hd) v) (nameOf c) = none := by
              rw [lookupVal_setVal_ne ent (nameOf hd) (nameOf c) v (fun hk => hne hk.symm)]
              exact hlook
            obtain ⟨grown, hg1, hg2, hg3, hg4⟩ :=
              ih _ _ c ent' log' hndrest hcrest hlook' h
            refine ⟨nameOf hd :: grown, by simp [hg1], ?_, ?_, hg4⟩
            · intro v' hv'
              obtain ⟨h1, h2⟩ := hg2 v' hv'
              exact ⟨h1, List.mem_cons_of_mem _ h2⟩
            · intro hnone
              obtain ⟨h1, h2⟩ := hg3 hnone
              refine ⟨h1, fun hmem => ?_⟩
              rcases List.mem_cons.mp hmem with hk | hk
              · exact hne hk.symm
              · exact h2 hk

theorem except_bind_ok {ε α β : Type} (x : Except ε α) (f : α → Except ε β) (b : β)
    (h : x >>= f = .ok b) : ∃ a, x = .ok a ∧ f a = .ok b := by
  cases x with
  | error e => simp only [Bind.bind, Except.bind] at h; exact absurd h (by simp)
  | ok a => exact ⟨a, rfl, by simpa only [Bind.bind, Except.bind] using h⟩

theorem except_map_ok {ε α β : Type} (x : Except ε α) (f : α → β) (b : β)
    (h : x.map f = .ok b) : ∃ a, x = .ok a ∧ f a = b := by
  cases x with
  | error e => simp [Except.map] at h
  | ok a => exact ⟨a, rfl, by simpa [Except.map] using h⟩

/-! ## Claim C1 -/

/-- C1, amended: a field that already holds a defined value when a
lifecycle handler runs is left unchanged and its generator is never
invoked, for ordinary columns of both subscriber variants on insert and
update, and for primary columns of the role-tagged variant; for the
trigger-based variant's pre-insert this holds only for fields that are not
among the primary columns, because its primary-column pass omits the
defined-value check (see the counterexample). -/
theorem c1_defined_value_precedence :
    (∀ (ev : RoleInsertEvent) (k : String) (v : JSVal) (ent' : Entity) (log' : List String),
        lookupVal ev.entity k = some v →
        roleBeforeInsert ev = .ok (ent', log') →
        lookupVal ent' k = some v ∧ k ∉ log') ∧
    (∀ (ev : TrigInsertEvent) (k : String) (v : JSVal) (ent' : Entity) (log' : List String),
        k ∉ ev.primaryColumns.map TrigColumn.propertyName →
        lookupVal ev.entity k = some v →
        trigBeforeInsert ev = .ok (ent', log') →
        lookupVal ent' k = some v ∧ k ∉ log') ∧
    (∀ (ev : RoleUpdateEvent) (e : Entity) (k : String) (v : JSVal)
        (res : Option Entity) (log' : List String),
        ev.entity = some e →
        lookupVal e k = some v →
        roleBeforeUpdate ev = .ok (res, log') →
        (∃ e', res = some e' ∧ lookupVal e' k = some v) ∧ k ∉ log') ∧
    (∀ (ev : TrigUpdateEvent) (e : Entity) (k : String) (v : JSVal)
        (res : Option Entity) (log' : List String),
        ev.entity = some e →
        lookupVal e k = some v →
        trigBeforeUpdate ev = .ok (res, log') →
        (∃ e', res = some e' ∧ lookupVal e' k = some v) ∧ k ∉ log') := by
  refine ⟨?_, ?_, ?_, ?_⟩
  · intro ev k v ent' log' hv h
    rw [roleBeforeInsert] at h
    obtain ⟨⟨e1, l1⟩, h1, h2⟩ := except_bind_ok _ _ _ h
    obtain ⟨hv1, g1, hg1, hk1⟩ :=
      fillLoop_preserves_defined _ _ ev.columns ev.entity [] k v e1 l1 h1 hv
    obtain ⟨hv2, g2, hg2, hk2⟩ :=
      fillLoop_preserves_defined _ _ ev.primaryColumns e1 l1 k v ent' log' h2 hv1
    refine ⟨hv2, ?_⟩
    rw [hg2, hg1]
    simp only [List.nil_append, List.mem_append]
    rintro (hk | hk)
    · exact hk1 hk
    · exact hk2 hk
  · intro ev k v ent' log' hkprim hv h
    rw [trigBeforeInsert] at h
    obtain ⟨⟨e1, l1⟩, h1, h2⟩ := except_bind_ok _ _ _ h
    obtain ⟨hv1, g1, hg1, hk1⟩ :=
      fillLoop_preserves_defined _ _ ev.columns ev.entity [] k v e1 l1 h1 hv
    have hframe :=
      fillLoop_frame TrigColumn.propertyName trigCreateAct false ev.primaryColumns
        e1 l1 ent' log' h2 k hkprim
    obtain ⟨g2, hg2, hsub⟩ :=
      fillLoop_log TrigColumn.propertyName trigCreateAct false ev.primaryColumns
        e1 l1 ent' log' h2
    refine ⟨hframe.trans hv1, ?_⟩
    rw [hg2, hg1]
    simp only [List.nil_append, List.mem_append]
    rintro (hk | hk)
    · exact hk1 hk
    · exact hkprim (hsub k hk)
  · intro ev e k v res log' hev hv h
    rw [roleBeforeUpdate, hev] at h
    obtain ⟨⟨e2, l2⟩, hfl, heq⟩ := except_map_ok _ _ _ h
    obtain ⟨rfl, rfl⟩ : some e2 = res ∧ l2 = log' := by
      simpa [Prod.ext_iff] using heq
    obtain ⟨hv1, g1, hg1, hk1⟩ :=
      fillLoop_preserves_defined _ _ ev.columns e [] k v e2 l2 hfl hv
    exact ⟨⟨e2, rfl, hv1⟩, by rw [hg1]; simpa using hk1⟩
  · intro ev e k v res log' hev hv h
    rw [trigBeforeUpdate, hev] at h
    obtain ⟨⟨e2, l2⟩, hfl, heq⟩ := except_map_ok _ _ _ h
    obtain ⟨rfl, rfl⟩ : some e2 = res ∧ l2 = log' := by
      simpa [Prod.ext_iff] using heq
    obtain ⟨hv1, g1, hg1, hk1⟩ :=
      fillLoop_preserves_defined _ _ ev.columns e [] k v e2 l2 hfl hv
    exact ⟨⟨e2, rfl, hv1⟩, by rw [hg1]; simpa using hk1⟩

/-- C1, counterexample: the trigger-based `beforeInsert` regenerates and
overwrites a primary column even when the entity already holds a defined
value for it (the primary-column pass of `src/column.test.ts:319-330` has
no defined-value check): with `id` pre-set to `"Y"` and a `create`-trigger
generator returning `"X"`, the handler succeeds, invokes the generator
(`"id"` is in the invocation log) and stores `"X"`, so the defined value is
not preserved as the claim states. -/
theorem c1_counterexample :
    trigBeforeInsert
        ⟨[("id", JSVal.str "Y")],
         [⟨"id", .one ⟨some .create, some (Except.ok (JSVal.str "X"))⟩⟩],
         [⟨"id", .one ⟨some .create, some (Except.ok (JSVal.str "X"))⟩⟩]⟩
      = .ok ([("id", JSVal.str "X")], ["id"]) ∧
    JSVal.str "X" ≠ JSVal.str "Y" := by
  exact ⟨rfl, by decide⟩

/-- C1, witness: the amended theorem applied to a concrete role-tagged
insert event whose `name` field is pre-set; the (throwing) generator is
not invoked and the value survives. -/
theorem c1_witness :
    lookupVal [("name", JSVal.str "Alice")] "name" = some (JSVal.str "Alice") ∧
    roleBeforeInsert
        ⟨[("name", JSVal.str "Alice")],
         [⟨"name", .one ⟨some .createAtColumn, Except.error "boom"⟩⟩],
         [⟨"name", .one ⟨some .createAtColumn, Except.error "boom"⟩⟩]⟩
      = .ok ([("name", JSVal.str "Alice")], []) ∧
    (lookupVal [("name", JSVal.str "Alice")] "name" = some (JSVal.str "Alice") ∧
      "name" ∉ ([] : List String)) := by
  refine ⟨rfl, rfl, ?_⟩
  exact c1_defined_value_precedence.1
    ⟨[("name", JSVal.str "Alice")],
     [⟨"name", .one ⟨some .createAtColumn, Except.error "boom"⟩⟩],
     [⟨"name", .one ⟨some .createAtColumn, Except.error "boom"⟩⟩]⟩
    "name" (JSVal.str "Alice") [("name", JSVal.str "Alice")] [] rfl rfl

/-! ## Claim C2 -/

/-- C2, amended: on pre-insert, an undefined declared column (with distinct
column names, and not doubling as a primary column) is generated-and-
assigned iff its marker is one of the four role tags create-timestamp,
update-timestamp, create-actor, update-actor — i.e. the update-oriented
role markers ARE filled on insert, and the primary role tag is handled only
by the separate primary-column pass — or, in the trigger-based variant, a
custom trigger on-create or on-create-and-update (an on-update trigger is
not filled on insert). -/
theorem c2_insert_fill_characterization :
    (∀ (ev : RoleInsertEvent) (nm : String) (tag : CustomTransformerType) (v : JSVal)
        (ent' : Entity) (log' : List String),
        (ev.columns.map RoleColumn.propertyName).Nodup →
        (⟨nm, .one ⟨some tag, Except.ok v⟩⟩ : RoleColumn) ∈ ev.columns →
        nm ∉ ev.primaryColumns.map RoleColumn.propertyName →
        lookupVal ev.entity nm = none →
        roleBeforeInsert ev = .ok (ent', log') →
        ((lookupVal ent' nm = some v ∧ nm ∈ log') ↔
          (tag = .createAtColumn ∨ tag = .updateAtColumn ∨
           tag = .createIdColumn ∨ tag = .updateIdColumn)) ∧
        (tag = .primaryColumn → lookupVal ent' nm = none ∧ nm ∉ log')) ∧
    (∀ (ev : TrigInsertEvent) (nm : String) (tr : GenerateTrigger) (v : JSVal)
        (ent' : Entity) (log' : List String),
        (ev.columns.map TrigColumn.propertyName).Nodup →
        (⟨nm, .one ⟨some tr, some (Except.ok v)⟩⟩ : TrigColumn) ∈ ev.columns →
        nm ∉ ev.primaryColumns.map TrigColumn.propertyName →
        lookupVal ev.entity nm = none →
        trigBeforeInsert ev = .ok (ent', log') →
        ((lookupVal ent' nm = some v ∧ nm ∈ log') ↔
          (tr = .create ∨ tr = .createAndUpdate)) ∧
        (tr = .update → lookupVal ent' nm = none ∧ nm ∉ log')) := by
  constructor
  · intro ev nm tag v ent' log' hnd hc hprim hlook h
    rw [roleBeforeInsert] at h
    obtain ⟨⟨e1, l1⟩, h1, h2⟩ := except_bind_ok _ _ _ h
    obtain ⟨g1, hg1, hcl1, hcl2, hcl3⟩ :=
      fillLoop_char RoleColumn.propertyName roleInsertAct ev.columns ev.entity []
        _ e1 l1 hnd hc hlook h1
    dsimp only at hcl1 hcl2 hg1
    have hframe :=
      fillLoop_frame RoleColumn.propertyName rolePrimaryAct true ev.primaryColumns
        e1 l1 ent' log' h2 nm hprim
    obtain ⟨g2, hg2, hsub2⟩ :=
      fillLoop_log RoleColumn.propertyName rolePrimaryAct true ev.primaryColumns
        e1 l1 ent' log' h2
    constructor
    · constructor
      · rintro ⟨hval, _⟩
        cases tag with
        | createAtColumn => exact Or.inl rfl
        | updateAtColumn => exact Or.inr (Or.inl rfl)
        | createIdColumn => exact Or.inr (Or.inr (Or.inl rfl))
        | updateIdColumn => exact Or.inr (Or.inr (Or.inr rfl))
        | primaryColumn =>
          obtain ⟨hnone, _⟩ := hcl2 rfl
          rw [hframe, hnone] at hval
          exact Option.noConfusion hval
      · intro htag
        have hact : roleInsertAct ⟨nm, .one ⟨some tag, Except.ok v⟩⟩ =
            some (Except.ok v) := by
          rcases htag with rfl | rfl | rfl | rfl <;> rfl
        obtain ⟨hval, hmem⟩ := hcl1 v hact
        refine ⟨by rw [hframe]; exact hval, ?_⟩
        rw [hg2, hg1]
        simp [hmem]
    · rintro rfl
      obtain ⟨hnone, hnm⟩ := hcl2 rfl
      refine ⟨by rw [hframe]; exact hnone, ?_⟩
      rw [hg2, hg1]
      simp only [List.nil_append, List.mem_append]
      rintro (hk | hk)
      · exact hnm hk
      · exact hprim (hsub2 _ hk)
  · intro ev nm tr v ent' log' hnd hc hprim hlook h
    rw [trigBeforeInsert] at h
    obtain ⟨⟨e1, l1⟩, h1, h2⟩ := except_bind_ok _ _ _ h
    obtain ⟨g1, hg1, hcl1, hcl2, hcl3⟩ :=
      fillLoop_char TrigColumn.propertyName trigCreateAct ev.columns ev.entity []
        _ e1 l1 hnd hc hlook h1
    dsimp only at hcl1 hcl2 hg1
    have hframe :=
      fillLoop_frame TrigColumn.propertyName trigCreateAct false ev.primaryColumns
        e1 l1 ent' log' h2 nm hprim
    obtain ⟨g2, hg2, hsub2⟩ :=
      fillLoop_log TrigColumn.propertyName trigCreateAct false ev.primaryColumns
        e1 l1 ent' log' h2
    constructor
    · constructor
      · rintro ⟨hval, _⟩
        cases tr with
        | create => exact Or.inl rfl
        | createAndUpdate => exact Or.inr rfl
        | update =>
          obtain ⟨hnone, _⟩ := hcl2 rfl
          rw [hframe, hnone] at hval
          exact Option.noConfusion hval
      · intro htr
        have hact : trigCreateAct ⟨nm, .one ⟨some tr, some (Except.ok v)⟩⟩ =
            some (Except.ok v) := by
          rcases htr with rfl | rfl <;> rfl
        obtain ⟨hval, hmem⟩ := hcl1 v hact
        refine ⟨by rw [hframe]; exact hval, ?_⟩
        rw [hg2, hg1]
        simp [hmem]
    · rintro rfl
      obtain ⟨hnone, hnm⟩ := hcl2 rfl
      refine ⟨by rw [hframe]; exact hnone, ?_⟩
      rw [hg2, hg1]
      simp only [List.nil_append, List.mem_append]
      rintro (hk | hk)
      · exact hnm hk
      · exact hprim (hsub2 _ hk)

/-- C2, counterexample: contrary to the claim's classification, the
role-tagged `beforeInsert` does fill an undefined `updateAtColumn`-tagged
(update-timestamp) column on insert, and does not fill a
`primaryColumn`-tagged column in its ordinary-column pass. -/
theorem c2_counterexample :
    roleBeforeInsert
        ⟨[], [⟨"updateAt", .one ⟨some .updateAtColumn, Except.ok (JSVal.str "G")⟩⟩], []⟩
      = .ok ([("updateAt", JSVal.str "G")], ["updateAt"]) ∧
    roleBeforeInsert
        ⟨[], [⟨"id", .one ⟨some .primaryColumn, Except.ok (JSVal.str "P")⟩⟩], []⟩
      = .ok ([], []) := by
  exact ⟨rfl, rfl⟩

/-- C2, witness: the amended characterization applied to a concrete
one-column insert event with a create-timestamp tag. -/
theorem c2_witness :
    List.Nodup (([⟨"createAt", .one ⟨some .createAtColumn, Except.ok (JSVal.str "T")⟩⟩] :
        List RoleColumn).map RoleColumn.propertyName) ∧
    lookupVal [] "createAt" = none ∧
    (((lookupVal [("createAt", JSVal.str "T")] "createAt" = some (JSVal.str "T") ∧
        "createAt" ∈ ["createAt"]) ↔
      (CustomTransformerType.createAtColumn = .createAtColumn ∨
       CustomTransformerType.createAtColumn = .updateAtColumn ∨
       CustomTransformerType.createAtColumn = .createIdColumn ∨
       CustomTransformerType.createAtColumn = .updateIdColumn)) ∧
     (CustomTransformerType.createAtColumn = .primaryColumn →
       lookupVal [("createAt", JSVal.str "T")] "createAt" = none ∧
       "createAt" ∉ ["createAt"])) := by
  refine ⟨by simp, rfl, ?_⟩
  exact c2_insert_fill_characterization.1
    ⟨[], [⟨"createAt", .one ⟨some .createAtColumn, Except.ok (JSVal.str "T")⟩⟩], []⟩
    "createAt" .createAtColumn (JSVal.str "T") [("createAt", JSVal.str "T")] ["createAt"]
    (by simp) (by simp) (by simp) rfl rfl

/-! ## Claim C6 -/

/-- C6: on pre-update, an undefined event entity suppresses every field
assignment, and an undefined declared column of a defined entity (distinct
column names) is generated-and-assigned iff its marker means
generate-on-update — role tags update-timestamp / update-actor, or a
custom trigger on-update / on-create-and-update. -/
theorem c6_update_fill_characterization :
    (∀ (cols : List RoleColumn), roleBeforeUpdate ⟨none, cols⟩ = .ok (none, [])) ∧
    (∀ (cols : List TrigColumn), trigBeforeUpdate ⟨none, cols⟩ = .ok (none, [])) ∧
    (∀ (ev : RoleUpdateEvent) (e : Entity) (nm : String) (tag : CustomTransformerType)
        (v : JSVal) (res : Option Entity) (log' : List String),
        ev.entity = some e →
        (ev.columns.map RoleColumn.propertyName).Nodup →
        (⟨nm, .one ⟨some tag, Except.ok v⟩⟩ : RoleColumn) ∈ ev.columns →
        lookupVal e nm = none →
        roleBeforeUpdate ev = .ok (res, log') →
        ∃ e₂, res = some e₂ ∧
          ((lookupVal e₂ nm = some v ∧ nm ∈ log') ↔
            (tag = .updateAtColumn ∨ tag = .updateIdColumn))) ∧
    (∀ (ev : TrigUpdateEvent) (e : Entity) (nm : String) (tr : GenerateTrigger)
        (v : JSVal) (res : Option Entity) (log' : List String),
        ev.entity = some e →
        (ev.columns.map TrigColumn.propertyName).Nodup →
        (⟨nm, .one ⟨some tr, some (Except.ok v)⟩⟩ : TrigColumn) ∈ ev.columns →
        lookupVal e nm = none →
        trigBeforeUpdate ev = .ok (res, log') →
        ∃ e₂, res = some e₂ ∧
          ((lookupVal e₂ nm = some v ∧ nm ∈ log') ↔
            (tr = .update ∨ tr = .createAndUpdate))) := by
  refine ⟨fun cols => rfl, fun cols => rfl, ?_, ?_⟩
  · intro ev e nm tag v res log' hev hnd hc hlook h
    rw [roleBeforeUpdate, hev] at h
    obtain ⟨⟨e₂, l₂⟩, hfl, heq⟩ := except_map_ok _ _ _ h
    obtain ⟨rfl, rfl⟩ : some e₂ = res ∧ l₂ = log' := by
      simpa [Prod.ext_iff] using heq
    obtain ⟨g1, hg1, hcl1, hcl2, hcl3⟩ :=
      fillLoop_char RoleColumn.propertyName roleUpdateAct ev.columns e []
        _ e₂ l₂ hnd hc hlook hfl
    dsimp only at hcl1 hcl2 hg1
    refine ⟨e₂, rfl, ?_, ?_⟩
    · rintro ⟨hval, _⟩
      cases tag with
      | updateAtColumn => exact Or.inl rfl
      | updateIdColumn => exact Or.inr rfl
      | createAtColumn =>
        obtain ⟨hnone, _⟩ := hcl2 rfl
        rw [hnone] at hval
        exact Option.noConfusion hval
      | createIdColumn =>
        obtain ⟨hnone, _⟩ := hcl2 rfl
        rw [hnone] at hval
        exact Option.noConfusion hval
      | primaryColumn =>
        obtain ⟨hnone, _⟩ := hcl2 rfl
        rw [hnone] at hval
        exact Option.noConfusion hval
    · intro htag
      have hact : roleUpdateAct ⟨nm, .one ⟨some tag, Except.ok v⟩⟩ =
          some (Except.ok v) := by
        rcases htag with rfl | rfl <;> rfl
      obtain ⟨hval, hmem⟩ := hcl1 v hact
      exact ⟨hval, by rw [hg1]; simpa using hmem⟩
  · intro ev e nm tr v res log' hev hnd hc hlook h
    rw [trigBeforeUpdate, hev] at h
    obtain ⟨⟨e₂, l₂⟩, hfl, heq⟩ := except_map_ok _ _ _ h
    obtain ⟨rfl, rfl⟩ : some e₂ = res ∧ l₂ = log' := by
      simpa [Prod.ext_iff] using heq
    obtain ⟨g1, hg1, hcl1, hcl2, hcl3⟩ :=
      fillLoop_char TrigColumn.propertyName trigUpdateAct ev.columns e []
        _ e₂ l₂ hnd hc hlook hfl
    dsimp only at hcl1 hcl2 hg1
    refine ⟨e₂, rfl, ?_, ?_⟩
    · rintro ⟨hval, _⟩
      cases tr with
      | update => exact Or.inl rfl
      | createAndUpdate => exact Or.inr rfl
      | create =>
        obtain ⟨hnone, _⟩ := hcl2 rfl
        rw [hnone] at hval
        exact Option.noConfusion hval
    · intro htr
      have hact : trigUpdateAct ⟨nm, .one ⟨some tr, some (Except.ok v)⟩⟩ =
          some (Except.ok v) := by
        rcases htr with rfl | rfl <;> rfl
      obtain ⟨hval, hmem⟩ := hcl1 v hact
      exact ⟨hval, by rw [hg1]; simpa using hmem⟩

/-- C6, witness: the update characterization applied to a concrete
one-column update event carrying an `updateAtColumn` tag. -/
theorem c6_witness :
    (some [] : Option Entity) = some [] ∧
    lookupVal [] "updateAt" = none ∧
    (∃ e₂, (some [("updateAt", JSVal.str "U")] : Option Entity) = some e₂ ∧
      ((lookupVal e₂ "updateAt" = some (JSVal.str "U") ∧ "updateAt" ∈ ["updateAt"]) ↔
        (CustomTransformerType.updateAtColumn = .updateAtColumn ∨
         CustomTransformerType.updateAtColumn = .updateIdColumn))) := by
  refine ⟨rfl, rfl, ?_⟩
  exact c6_update_fill_characterization.2.2.1
    ⟨some [], [⟨"updateAt", .one ⟨some .updateAtColumn, Except.ok (JSVal.str "U")⟩⟩]⟩
    [] "updateAt" .updateAtColumn (JSVal.str "U")
    (some [("updateAt", JSVal.str "U")]) ["updateAt"]
    rfl (by simp) (by simp) rfl rfl

/-! ## Claim C4 -/

/-- C4: an insert or update event that reaches an undefined field whose
generator is the default unconfigured generator of the primary
(`primaryGlobalColumn`) or actor-id (`userIdGlobalColumn`) role fails as a
whole with the corresponding "not configured" error — the handler returns
the error instead of an updated entity, so no field assignment survives
and there is no fallback at this layer. -/
theorem c4_unconfigured_generator_fails_event :
    (∀ (e : Entity) (nm : String),
        lookupVal e nm = none →
        roleBeforeInsert
            ⟨e, [],
             [⟨nm, .one ⟨some .primaryColumn, primaryGlobalColumn.transformer.generate⟩⟩]⟩
          = .error "Not implemented, please setPrimaryGlobalColumn first") ∧
    (∀ (e : Entity) (nm : String),
        lookupVal e nm = none →
        roleBeforeUpdate
            ⟨some e,
             [⟨nm, .one ⟨some .updateIdColumn, userIdGlobalColumn.transformer.generate⟩⟩]⟩
          = .error "Not implemented, please userIdGlobalColumn first") := by
  constructor
  · intro e nm hlook
    have hstep : roleBeforeInsert
        ⟨e, [],
         [⟨nm, .one ⟨some .primaryColumn, primaryGlobalColumn.transformer.generate⟩⟩]⟩ =
        fillLoop RoleColumn.propertyName rolePrimaryAct true e []
          [⟨nm, .one ⟨some .primaryColumn, primaryGlobalColumn.transformer.generate⟩⟩] := rfl
    rw [hstep, fillLoop_cons]
    dsimp only
    rw [hlook]
    rfl
  · intro e nm hlook
    have hstep : roleBeforeUpdate
        ⟨some e,
         [⟨nm, .one ⟨some .updateIdColumn, userIdGlobalColumn.transformer.generate⟩⟩]⟩ =
        (fillLoop RoleColumn.propertyName roleUpdateAct true e []
          [⟨nm, .one ⟨some .updateIdColumn, userIdGlobalColumn.transformer.generate⟩⟩]).map
            (fun p => (some p.1, p.2)) := rfl
    rw [hstep, fillLoop_cons]
    dsimp only
    rw [hlook]
    rfl

/-- C4, witness: the failure theorem applied to a concrete entity that has
a `name` but no `id` and no `updateBy`. -/
theorem c4_witness :
    lookupVal [("name", JSVal.str "Bob")] "id" = none ∧
    roleBeforeInsert
        ⟨[("name", JSVal.str "Bob")], [],
         [⟨"id", .one ⟨some .primaryColumn, primaryGlobalColumn.transformer.generate⟩⟩]⟩
      = .error "Not implemented, please setPrimaryGlobalColumn first" ∧
    roleBeforeUpdate
        ⟨some [("name", JSVal.str "Bob")],
         [⟨"updateBy", .one ⟨some .updateIdColumn, userIdGlobalColumn.transformer.generate⟩⟩]⟩
      = .error "Not implemented, please userIdGlobalColumn first" := by
  refine ⟨rfl, ?_, ?_⟩
  · exact c4_unconfigured_generator_fails_event.1 [("name", JSVal.str "Bob")] "id" rfl
  · exact c4_unconfigured_generator_fails_event.2 [("name", JSVal.str "Bob")] "updateBy" rfl

/-! ## Claim C3 -/

theorem charsLeads_head {a : Char} {ps cs : List Char}
    (h : charsLeads (a :: ps) cs = true) : ∃ rest, cs = a :: rest := by
  cases cs with
  | nil => simp [charsLeads] at h
  | cons c cs' =>
    simp only [charsLeads, Bool.and_eq_true, decide_eq_true_eq] at h
    exact ⟨cs', by rw [h.1]⟩

/-- Two true prefix checks on the same string agree on the first
character; used to show the source's else-if URL scheme chain treats the
five schemes independently. -/
theorem strStartsWith_false_of_head_ne (u p q : String) (a b : Char)
    (ps qs : List Char) (hp : p.data = a :: ps) (hq : q.data = b :: qs) (hne : a ≠ b)
    (h : strStartsWith u p = true) : strStartsWith u q = false := by
  cases hq' : strStartsWith u q with
  | false => rfl
  | true =>
    rw [strStartsWith, hp] at h
    rw [strStartsWith, hq] at hq'
    obtain ⟨r1, h1⟩ := charsLeads_head h
    obtain ⟨r2, h2⟩ := charsLeads_head hq'
    rw [h1] at h2
    injection h2 with hab _
    exact absurd hab hne

/-- C3: with `type` unset, `inferType` sniffs the URL scheme exactly as
claimed — `postgresql://` and `mysql://` select the type with the url kept,
`sqlite:` / `better-sqlite3:` / `file:` select the type and strip the
scheme from the stored url, and any other url (or no url) leaves the
config unchanged. -/
theorem c3_url_scheme_inference :
    ∀ (cfg : MergedConfig), cfg.type = none →
      (cfg.url = none → inferType cfg = cfg) ∧
      (∀ u, cfg.url = some u →
        (strStartsWith u "postgresql://" = true →
            inferType cfg = { cfg with type := some "postgres" }) ∧
        (strStartsWith u "mysql://" = true →
            inferType cfg = { cfg with type := some "mysql" }) ∧
        (strStartsWith u "sqlite:" = true →
            inferType cfg =
              { cfg with type := some "sqlite", url := some (jsSubstring u 7) }) ∧
        (strStartsWith u "better-sqlite3:" = true →
            inferType cfg =
              { cfg with type := some "better-sqlite3", url := some (jsSubstring u 15) }) ∧
        (strStartsWith u "file:" = true →
            inferType cfg =
              { cfg with type := some "sqlite", url := some (jsSubstring u 5) }) ∧
        (strStartsWith u "postgresql://" = false → strStartsWith u "mysql://" = false →
         strStartsWith u "sqlite:" = false → strStartsWith u "better-sqlite3:" = false →
         strStartsWith u "file:" = false → inferType cfg = cfg)) := by
  intro cfg htype
  constructor
  · intro hurl
    simp only [inferType, htype, hurl]
  · intro u hurl
    refine ⟨?_, ?_, ?_, ?_, ?_, ?_⟩
    · intro hpg
      simp only [inferType, htype, hurl, hpg, if_true]
    · intro hmy
      have hpg := strStartsWith_false_of_head_ne u "mysql://" "postgresql://"
        'm' 'p' _ _ rfl rfl (by decide) hmy
      simp only [inferType, htype, hurl, hpg, hmy, Bool.false_eq_true, if_false, if_true]
    · intro hsq
      have hpg := strStartsWith_false_of_head_ne u "sqlite:" "postgresql://"
        's' 'p' _ _ rfl rfl (by decide) hsq
      have hmy := strStartsWith_false_of_head_ne u "sqlite:" "mysql://"
        's' 'm' _ _ rfl rfl (by decide) hsq
      simp only [inferType, htype, hurl, hpg, hmy, hsq, Bool.false_eq_true, if_false, if_true]
    · intro hbs
      have hpg := strStartsWith_false_of_head_ne u "better-sqlite3:" "postgresql://"
        'b' 'p' _ _ rfl rfl (by decide) hbs
      have hmy := strStartsWith_false_of_head_ne u "better-sqlite3:" "mysql://"
        'b' 'm' _ _ rfl rfl (by decide) hbs
      have hsq := strStartsWith_false_of_head_ne u "better-sqlite3:" "sqlite:"
        'b' 's' _ _ rfl rfl (by decide) hbs
      simp only [inferType, htype, hurl, hpg, hmy, hsq, hbs, Bool.false_eq_true, if_false,
        if_true]
    · intro hfl
      have hpg := strStartsWith_false_of_head_ne u "file:" "postgresql://"
        'f' 'p' _ _ rfl rfl (by decide) hfl
      have hmy := strStartsWith_false_of_head_ne u "file:" "mysql://"
        'f' 'm' _ _ rfl rfl (by decide) hfl
      have hsq := strStartsWith_false_of_head_ne u "file:" "sqlite:"
        'f' 's' _ _ rfl rfl (by decide) hfl
      have hbs := strStartsWith_false_of_head_ne u "file:" "better-sqlite3:"
        'f' 'b' _ _ rfl rfl (by decide) hfl
      simp only [inferType, htype, hurl, hpg, hmy, hsq, hbs, hfl, Bool.false_eq_true,
        if_false, if_true]
    · intro hpg hmy hsq hbs hfl
      simp only [inferType, htype, hurl, hpg, hmy, hsq, hbs, hfl, Bool.false_eq_true,
        if_false]

/-- C3, witness: the inference theorem applied to the spec's own examples
`sqlite:./a.db` and `postgresql://u:p@h/db`. -/
theorem c3_witness :
    strStartsWith "sqlite:./a.db" "sqlite:" = true ∧
    inferType ⟨none, some "sqlite:./a.db", false, none, none, none, none⟩ =
      ⟨some "sqlite", some (jsSubstring "sqlite:./a.db" 7), false, none, none, none, none⟩ ∧
    jsSubstring "sqlite:./a.db" 7 = "./a.db" ∧
    strStartsWith "postgresql://u:p@h/db" "postgresql://" = true ∧
    inferType ⟨none, some "postgresql://u:p@h/db", false, none, none, none, none⟩ =
      ⟨some "postgres", some "postgresql://u:p@h/db", false, none, none, none, none⟩ := by
  refine ⟨rfl, ?_, rfl, rfl, ?_⟩
  · exact ((c3_url_scheme_inference
      ⟨none, some "sqlite:./a.db", false, none, none, none, none⟩ rfl).2
        "sqlite:./a.db" rfl).2.2.1 rfl
  · exact ((c3_url_scheme_inference
      ⟨none, some "postgresql://u:p@h/db", false, none, none, none, none⟩ rfl).2
        "postgresql://u:p@h/db" rfl).1 rfl

/-! ## Claim C5 -/

/-- C5: whatever the middleware factory is given — raw options, nothing, or
a pre-built connection — the resulting connection's subscriber list begins
with the auto-fill listener followed by the caller's subscribers in their
original order; in the pre-built case the connection's other options are
left untouched (the subscriber list is merged in place, not discarded). -/
theorem c5_subscriber_injection :
    (∀ (env : Env) (opts : TypeormOpts),
        (createTypeormMiddleware env (some (.inl opts))).options.subscribers =
          some (.autoFillValueSubscriber :: opts.subscribers.getD [])) ∧
    (∀ (env : Env),
        (createTypeormMiddleware env none).options.subscribers =
          some [.autoFillValueSubscriber]) ∧
    (∀ (env : Env) (ds : DataSource),
        (createTypeormMiddleware env (some (.inr ds))).options.subscribers =
          some (.autoFillValueSubscriber :: ds.options.subscribers.getD []) ∧
        (createTypeormMiddleware env (some (.inr ds))).options.type = ds.options.type ∧
        (createTypeormMiddleware env (some (.inr ds))).options.url = ds.options.url ∧
        (createTypeormMiddleware env (some (.inr ds))).options.database =
          ds.options.database ∧
        (createTypeormMiddleware env (some (.inr ds))).options.driver = ds.options.driver ∧
        (createTypeormMiddleware env (some (.inr ds))).options.synchronize =
          ds.options.synchronize ∧
        (createTypeormMiddleware env (some (.inr ds))).options.logging =
          ds.options.logging ∧
        (createTypeormMiddleware env (some (.inr ds))).options.entities =
          ds.options.entities) := by
  refine ⟨fun env opts => rfl, fun env => rfl, fun env ds => ?_⟩
  refine ⟨?_, rfl, rfl, rfl, rfl, rfl, rfl, rfl⟩
  cases h : ds.options.subscribers <;>
    simp [createTypeormMiddleware, setOptionsSubscribers, h]

/-! ## Claim C9 -/

/-- C9: option normalization takes `type`, `url` and `synchronize` from the
environment (`DATABASE_TYPE`, `DATABASE_URL`, `DATABASE_SYNCHRONIZE`, the
latter mapping exactly the string `"true"` to `true`) when the caller
leaves them unset, and the caller's value always wins when supplied.  For
`type`/`url`, the fallback equals the raw environment value whenever that
value is not the empty string (the source's `||` coalesces a falsy empty
string to `undefined`). -/
theorem c9_env_fallback :
    ∀ (env : Env) (opts : TypeormOpts),
      (∀ t, opts.type = some t → (assignDefaults env (some opts)).type = some t) ∧
      (opts.type = none → env.lookup "DATABASE_TYPE" ≠ some "" →
        (assignDefaults env (some opts)).type = env.lookup "DATABASE_TYPE") ∧
      (∀ u, opts.url = some u → (assignDefaults env (some opts)).url = some u) ∧
      (opts.url = none → env.lookup "DATABASE_URL" ≠ some "" →
        (assignDefaults env (some opts)).url = env.lookup "DATABASE_URL") ∧
      (∀ b, opts.synchronize = some b → (assignDefaults env (some opts)).synchronize = b) ∧
      (opts.synchronize = none →
        (assignDefaults env (some opts)).synchronize =
          (env.lookup "DATABASE_SYNCHRONIZE" == some "true")) := by
  intro env opts
  refine ⟨?_, ?_, ?_, ?_, ?_, ?_⟩
  · intro t ht; simp [assignDefaults, ht]
  · intro ht h2
    cases he : env.lookup "DATABASE_TYPE" with
    | none => simp [assignDefaults, envOr, ht, he]
    | some s =>
      have hs : s.isEmpty = false := by
        cases hse : s.isEmpty
        · rfl
        · exact absurd (he.trans (by rw [(String.isEmpty_iff s).mp hse])) h2
      simp [assignDefaults, envOr, ht, he, hs]
  · intro u hu; simp [assignDefaults, hu]
  · intro hu h2
    cases he : env.lookup "DATABASE_URL" with
    | none => simp [assignDefaults, envOr, hu, he]
    | some s =>
      have hs : s.isEmpty = false := by
        cases hse : s.isEmpty
        · rfl
        · exact absurd (he.trans (by rw [(String.isEmpty_iff s).mp hse])) h2
      simp [assignDefaults, envOr, hu, he, hs]
  · intro b hb; simp [assignDefaults, hb]
  · intro hb; simp [assignDefaults, hb]

/-- C9, witness: the normalization theorem applied to a concrete
environment and an options struct that sets only `url`. -/
theorem c9_witness :
    (({ url := some "./db.sqlite" } : TypeormOpts).type = none) ∧
    (List.lookup "DATABASE_TYPE"
        [("DATABASE_TYPE", "postgres"), ("DATABASE_SYNCHRONIZE", "true")] ≠ some "") ∧
    (assignDefaults [("DATABASE_TYPE", "postgres"), ("DATABASE_SYNCHRONIZE", "true")]
        (some { url := some "./db.sqlite" })).type =
      List.lookup "DATABASE_TYPE"
        [("DATABASE_TYPE", "postgres"), ("DATABASE_SYNCHRONIZE", "true")] ∧
    (assignDefaults [("DATABASE_TYPE", "postgres"), ("DATABASE_SYNCHRONIZE", "true")]
        (some { url := some "./db.sqlite" })).url = some "./db.sqlite" ∧
    (assignDefaults [("DATABASE_TYPE", "postgres"), ("DATABASE_SYNCHRONIZE", "true")]
        (some { url := some "./db.sqlite" })).synchronize =
      (List.lookup "DATABASE_SYNCHRONIZE"
        [("DATABASE_TYPE", "postgres"), ("DATABASE_SYNCHRONIZE", "true")] ==
          some "true") := by
  refine ⟨rfl, by decide, ?_, ?_, ?_⟩
  · exact (c9_env_fallback [("DATABASE_TYPE", "postgres"), ("DATABASE_SYNCHRONIZE", "true")]
      { url := some "./db.sqlite" }).2.1 rfl (by decide)
  · exact (c9_env_fallback [("DATABASE_TYPE", "postgres"), ("DATABASE_SYNCHRONIZE", "true")]
      { url := some "./db.sqlite" }).2.2.1 "./db.sqlite" rfl
  · exact (c9_env_fallback [("DATABASE_TYPE", "postgres"), ("DATABASE_SYNCHRONIZE", "true")]
      { url := some "./db.sqlite" }).2.2.2.2.2 rfl

/-! ## Claim C7 -/

/-- C7: every role setter merges its partial argument into the policy
singleton — an absent attribute keeps its previous value and a supplied
attribute takes the supplied value (for the primary / actor-id setters the
`transformer` attribute is itself merged sub-field by sub-field, so a
complete supplied transformer is stored as given and absent sub-fields are
kept); in particular configuring only `length` leaves `type` and
`transformer` at their prior values. -/
theorem c7_partial_policy_merge :
    ∀ (cur : CustomColumn) (pc : PartialCustomColumn) (pp : PartialCustomColumnPT),
      ((setTimeGlobalColumn cur pc).type = pc.type.getD cur.type ∧
       (setTimeGlobalColumn cur pc).length = pc.length.getD cur.length ∧
       (setTimeGlobalColumn cur pc).transformer = pc.transformer.getD cur.transformer) ∧
      ((setPrimaryGlobalColumn cur pp).type = pp.type.getD cur.type ∧
       (setPrimaryGlobalColumn cur pp).length = pp.length.getD cur.length ∧
       (setPrimaryGlobalColumn cur pp).transformer.generate =
         (pp.transformer.bind PartialCustomTransformer.generate).getD
           cur.transformer.generate ∧
       (setPrimaryGlobalColumn cur pp).transformer.toFn =
         (pp.transformer.bind PartialCustomTransformer.toFn).getD cur.transformer.toFn ∧
       (setPrimaryGlobalColumn cur pp).transformer.fromFn =
         (pp.transformer.bind PartialCustomTransformer.fromFn).getD
           cur.transformer.fromFn) ∧
      ((setUserIdGlobalColumn cur pp).type = pp.type.getD cur.type ∧
       (setUserIdGlobalColumn cur pp).length = pp.length.getD cur.length ∧
       (setUserIdGlobalColumn cur pp).transformer.generate =
         (pp.transformer.bind PartialCustomTransformer.generate).getD
           cur.transformer.generate ∧
       (setUserIdGlobalColumn cur pp).transformer.toFn =
         (pp.transformer.bind PartialCustomTransformer.toFn).getD cur.transformer.toFn ∧
       (setUserIdGlobalColumn cur pp).transformer.fromFn =
         (pp.transformer.bind PartialCustomTransformer.fromFn).getD
           cur.transformer.fromFn) := by
  intro cur pc pp
  obtain ⟨pt, pl, ptr⟩ := pc
  obtain ⟨qt, ql, qtr⟩ := pp
  refine ⟨⟨?_, ?_, ?_⟩, ?_, ?_⟩
  · cases pt <;> cases pl <;> cases ptr <;> simp [setTimeGlobalColumn]
  · cases pt <;> cases pl <;> cases ptr <;> simp [setTimeGlobalColumn]
  · cases pt <;> cases pl <;> cases ptr <;> simp [setTimeGlobalColumn]
  · rcases qtr with _ | ⟨qg, qto, qfr⟩
    · cases qt <;> cases ql <;> simp [setPrimaryGlobalColumn]
    · cases qt <;> cases ql <;> cases qg <;> cases qto <;> cases qfr <;>
        simp [setPrimaryGlobalColumn]
  · rcases qtr with _ | ⟨qg, qto, qfr⟩
    · cases qt <;> cases ql <;> simp [setUserIdGlobalColumn]
    · cases qt <;> cases ql <;> cases qg <;> cases qto <;> cases qfr <;>
        simp [setUserIdGlobalColumn]

/-! ## Claim C8 -/

/-- C8: `buildColumn` fails at decorator-construction time exactly when one
of `generateTrigger` / `generate` is supplied without the other, and
succeeds when both or neither are supplied. -/
theorem c8_buildColumn_validation :
    ∀ (opts : BuildColumnOptions),
      (buildColumn opts).isOk = (opts.generateTrigger.isSome == opts.generate.isSome) := by
  intro opts
  obtain ⟨gt, g, tr⟩ := opts
  cases gt <;> cases g <;> simp [buildColumn, Except.isOk, Except.toBool]

/-! ## Claim C10 -/

/-- C10: the default timestamp policy's outbound transform maps a `Date` to
its ISO string and every non-`Date` input (including `undefined`) to
`undefined`; its inbound transform maps `undefined` and the empty string to
`undefined` and any other string to a `Date` parsed from it. -/
theorem c10_time_transformer_cases :
    (timeGlobalColumn.transformer.toFn none = none) ∧
    (∀ s, timeGlobalColumn.transformer.toFn (some (.str s)) = none) ∧
    (∀ n : Int, timeGlobalColumn.transformer.toFn (some (.num n)) = none) ∧
    (∀ ms, timeGlobalColumn.transformer.toFn (some (.date ms)) =
      some (.str (toISOString ms))) ∧
    (timeGlobalColumn.transformer.fromFn none = none) ∧
    (∀ s, timeGlobalColumn.transformer.fromFn (some (.str s)) =
      if s.isEmpty then none else some (.date (parseDate s))) := by
  refine ⟨rfl, fun s => rfl, fun n => rfl, fun ms => rfl, rfl, fun s => ?_⟩
  cases hs : s.isEmpty <;>
    simp [timeGlobalColumn, jsTruthy, parseDateJS, hs]

end HonoTypeorm
